import Mathlib

/-!
Verification of the C shim `src/wrapper.c` / `src/wrapper.h` of the
`ext-php-rs` repository against its natural-language specification.

The shim exposes selected Zend Engine primitives under `ext_php_rs_*`
symbols.  The engine itself is external to the repository, so engine
primitives are embedded abstractly (as parameters or as models of the
documented engine macros), while every `ext_php_rs_*` function body is
translated from `src/wrapper.c` statement by statement.
-/

namespace ExtPhpRs

/-! ## Zend string GC-flag model

Models the engine macros used by `wrapper.c` on `zend_string`, following
their definitions in the Zend Engine headers (`zend_types.h`,
`zend_string.h`):

  - `GC_TYPE_INFO(p)` is the `uint32_t` field `gc.u.type_info`;
  - `GC_FLAGS_MASK = 0x3f0`, `GC_FLAGS_SHIFT = 0`;
  - `GC_FLAGS(p) = (GC_TYPE_INFO(p) >> GC_FLAGS_SHIFT) & (GC_FLAGS_MASK >> GC_FLAGS_SHIFT)`;
  - `GC_ADD_FLAGS(p, f)` performs `GC_TYPE_INFO(p) |= f << GC_FLAGS_SHIFT`;
  - `IS_STR_INTERNED = GC_IMMUTABLE = 1 << 6`;
  - `IS_STR_VALID_UTF8 = 1 << 9`;
  - `ZSTR_IS_INTERNED(s) = GC_FLAGS(s) & IS_STR_INTERNED` (used as a boolean).

`typeInfo` is a `uint32_t`; all values are kept below `2 ^ 32`, and the
operations used here (`&&&`, `|||` with masks below `2 ^ 32`) cannot
overflow, so no reduction modulo `2 ^ 32` is needed.
-/

/-- Model of a `zend_string`: the GC header word together with the
remaining fields (hash, length, bytes) that `wrapper.c` never touches,
kept so that frame effects are expressible. -/
structure ZendString where
  typeInfo : Nat
  h : Nat
  len : Nat
  val : List Nat
  deriving DecidableEq, Repr

def GC_FLAGS_MASK : Nat := 0x3f0

def GC_FLAGS_SHIFT : Nat := 0

def IS_STR_INTERNED : Nat := 1 <<< 6

def IS_STR_VALID_UTF8 : Nat := 1 <<< 9

/-- Engine macro `GC_FLAGS`. -/
def GC_FLAGS (zs : ZendString) : Nat :=
  (zs.typeInfo >>> GC_FLAGS_SHIFT) &&& (GC_FLAGS_MASK >>> GC_FLAGS_SHIFT)

/-- Engine macro `GC_ADD_FLAGS`: ORs the given flag bits into the GC
type-info word, leaving every other field of the string unchanged. -/
def GC_ADD_FLAGS (zs : ZendString) (flags : Nat) : ZendString :=
  { zs with typeInfo := zs.typeInfo ||| (flags <<< GC_FLAGS_SHIFT) }

/-- Engine macro `ZSTR_IS_INTERNED`, used as a boolean in `wrapper.c`. -/
def ZSTR_IS_INTERNED (zs : ZendString) : Bool :=
  decide (GC_FLAGS zs &&& IS_STR_INTERNED ≠ 0)

/-- From `wrapper.c`:
`bool ext_php_rs_is_known_valid_utf8(const zend_string *zs)` returns
`GC_FLAGS(zs) & IS_STR_VALID_UTF8` converted to `bool`. -/
def ext_php_rs_is_known_valid_utf8 (zs : ZendString) : Bool :=
  decide (GC_FLAGS zs &&& IS_STR_VALID_UTF8 ≠ 0)

/-- From `wrapper.c`:
`void ext_php_rs_set_known_valid_utf8(zend_string *zs)` performs
`if (!ZSTR_IS_INTERNED(zs)) GC_ADD_FLAGS(zs, IS_STR_VALID_UTF8);`. -/
def ext_php_rs_set_known_valid_utf8 (zs : ZendString) : ZendString :=
  if !(ZSTR_IS_INTERNED zs) then GC_ADD_FLAGS zs IS_STR_VALID_UTF8 else zs

/-! ## Abstract engine primitives for the one-line forwarding wrappers

The forwarded engine functions (`zend_string_init`, `zend_string_release`,
`zend_object_alloc`, `zend_object_release`) live outside the repository;
they are embedded as an abstract interface over an abstract engine state
`W` and abstract pointer types. -/

/-- Abstract interface to the engine primitives that the one-line
forwarding wrappers call, over an engine state `W`. -/
structure EngineApi (W CStrP ZStrP ObjP CEP VoidP : Type) where
  zend_string_init : CStrP → Nat → Bool → W → ZStrP × W
  zend_string_release : ZStrP → W → W
  zend_object_alloc : Nat → CEP → W → VoidP × W
  zend_object_release : ObjP → W → W

variable {W CStrP ZStrP ObjP CEP VoidP Ctx α : Type}

/-- From `wrapper.c`: `return zend_string_init(str, len, persistent);`. -/
def ext_php_rs_zend_string_init (E : EngineApi W CStrP ZStrP ObjP CEP VoidP)
    (str : CStrP) (len : Nat) (persistent : Bool) (w : W) : ZStrP × W :=
  E.zend_string_init str len persistent w

/-- From `wrapper.c`: `zend_string_release(zs);`. -/
def ext_php_rs_zend_string_release (E : EngineApi W CStrP ZStrP ObjP CEP VoidP)
    (zs : ZStrP) (w : W) : W :=
  E.zend_string_release zs w

/-- From `wrapper.c`: `return zend_object_alloc(obj_size, ce);`. -/
def ext_php_rs_zend_object_alloc (E : EngineApi W CStrP ZStrP ObjP CEP VoidP)
    (obj_size : Nat) (ce : CEP) (w : W) : VoidP × W :=
  E.zend_object_alloc obj_size ce w

/-- From `wrapper.c`: `zend_object_release(obj);`. -/
def ext_php_rs_zend_object_release (E : EngineApi W CStrP ZStrP ObjP CEP VoidP)
    (obj : ObjP) (w : W) : W :=
  E.zend_object_release obj w

/-! ## Bailout and the zend_try / zend_catch adapters

A computation that may bail out either completes normally with a value
and a new engine state, or bails out (the engine longjmp), yielding only
a state. -/

/-- Outcome of running a computation that may trigger the engine bailout
longjmp: normal completion with a return value, or a bailout. -/
inductive BailOutcome (W α : Type) where
  | ok (ret : α) (w : W)
  | bail (w : W)
  deriving DecidableEq, Repr

/-- Engine primitive `zend_bailout`: performs `LONGJMP(*EG(bailout))`,
so the computation never completes normally, whatever return type its
caller expects. -/
def zend_bailout (w : W) : BailOutcome W α :=
  BailOutcome.bail w

/-- From `wrapper.c`: `void ext_php_rs_zend_bailout() { zend_bailout(); }`. -/
def ext_php_rs_zend_bailout (w : W) : BailOutcome W α :=
  zend_bailout w

/-- Engine macros `zend_try { body } zend_catch { handler } zend_end_try()`:
runs the body with a fresh bailout jump buffer; when the body completes
normally control falls through past `zend_end_try`, and when the body
bails out control enters the catch handler. `zend_first_try` differs
from `zend_try` only in initializing `__orig_bailout` to `NULL` instead
of the previous buffer, which the abstract state `W` absorbs. -/
def zend_try_catch_run {σ ρ : Type} (body : W → BailOutcome W σ)
    (fallThrough : σ → W → ρ) (catchHandler : W → ρ) (w : W) : ρ :=
  match body w with
  | BailOutcome.ok s w' => fallThrough s w'
  | BailOutcome.bail w' => catchHandler w'

/-- From `wrapper.c`: `ext_php_rs_zend_try_catch` runs
`zend_try { *result = callback(ctx); } zend_catch { return true; }
zend_end_try(); return false;`.  The memory cell `*result` is embedded
by value: `res` is its contents on entry and the middle component of the
returned triple is its contents on exit. -/
def ext_php_rs_zend_try_catch (callback : Ctx → W → BailOutcome W α)
    (ctx : Ctx) (res : α) (w : W) : Bool × α × W :=
  zend_try_catch_run (fun w0 => callback ctx w0)
    (fun ret w' => (false, ret, w'))
    (fun w' => (true, res, w'))
    w

/-- From `wrapper.c`: `ext_php_rs_zend_first_try_catch` runs
`zend_first_try { *result = callback(ctx); } zend_catch { return true; }
zend_end_try(); return false;`. -/
def ext_php_rs_zend_first_try_catch (callback : Ctx → W → BailOutcome W α)
    (ctx : Ctx) (res : α) (w : W) : Bool × α × W :=
  zend_try_catch_run (fun w0 => callback ctx w0)
    (fun ret w' => (false, ret, w'))
    (fun w' => (true, res, w'))
    w

/-! ## Globals accessors

The accessors select, purely by conditional compilation, between a TSRM
thread-local lookup (ZTS builds) and the address of the static global
structure (non-ZTS builds).  The compile-time flags become a record of
booleans; the engine-provided lookup results and global addresses become
an abstract environment. -/

/-- Compile-time configuration: which preprocessor symbols are defined. -/
structure BuildConfig where
  zts : Bool
  staticTsrmlsCache : Bool
  phpWin32 : Bool
  hasSigpipe : Bool
  deriving DecidableEq, Repr

/-- Engine-provided values the globals accessors can return: the TSRM
lookups (`TSRMG_FAST_BULK_STATIC`, `TSRMG_FAST_BULK`) and the addresses
of the static global structures, for each of the four global structures
accessed by `wrapper.c`. -/
structure GlobalsEnv (Ptr : Type) where
  tsrmStaticExecutor : Ptr
  tsrmExecutor : Ptr
  executorGlobalsAddr : Ptr
  tsrmStaticCore : Ptr
  tsrmCore : Ptr
  coreGlobalsAddr : Ptr
  tsrmStaticSapi : Ptr
  tsrmSapi : Ptr
  sapiGlobalsAddr : Ptr
  tsrmFile : Ptr
  fileGlobalsAddr : Ptr

variable {Ptr : Type}

/-- From `wrapper.c`: under `ZTS` returns the TSRM lookup of
`executor_globals` (the static-cache variant when
`ZEND_ENABLE_STATIC_TSRMLS_CACHE` is defined), otherwise
`&executor_globals`. -/
def ext_php_rs_executor_globals (cfg : BuildConfig) (env : GlobalsEnv Ptr) : Ptr :=
  if cfg.zts then
    if cfg.staticTsrmlsCache then env.tsrmStaticExecutor else env.tsrmExecutor
  else env.executorGlobalsAddr

/-- From `wrapper.c`: under `ZTS` returns the TSRM lookup of
`core_globals`, otherwise `&core_globals`. -/
def ext_php_rs_process_globals (cfg : BuildConfig) (env : GlobalsEnv Ptr) : Ptr :=
  if cfg.zts then
    if cfg.staticTsrmlsCache then env.tsrmStaticCore else env.tsrmCore
  else env.coreGlobalsAddr

/-- From `wrapper.c`: under `ZTS` returns the TSRM lookup of
`sapi_globals`, otherwise `&sapi_globals`. -/
def ext_php_rs_sapi_globals (cfg : BuildConfig) (env : GlobalsEnv Ptr) : Ptr :=
  if cfg.zts then
    if cfg.staticTsrmlsCache then env.tsrmStaticSapi else env.tsrmSapi
  else env.sapiGlobalsAddr

/-- From `wrapper.c`: under `ZTS` returns `TSRMG_FAST_BULK` of
`file_globals` (there is no static-cache branch for this one),
otherwise `&file_globals`. -/
def ext_php_rs_file_globals (cfg : BuildConfig) (env : GlobalsEnv Ptr) : Ptr :=
  if cfg.zts then env.tsrmFile else env.fileGlobalsAddr

/-! ## SAPI lifecycle traces

The startup / shutdown functions only call engine routines; their
behaviour is embedded as the ordered trace of engine calls they make. -/

/-- Engine calls the SAPI lifecycle wrappers can make. -/
inductive EngineAction where
  | signalIgnoreSigpipe
  | phpTsrmStartup
  | tsrmlsCacheUpdate
  | zendSignalStartup
  | tsrmShutdown
  | tsResource (id : Nat)
  deriving DecidableEq, Repr

/-- From `wrapper.c`: `ext_php_rs_sapi_startup` performs, in order:
`signal(SIGPIPE, SIG_IGN)` when `SIGPIPE` and `SIG_IGN` are defined;
under `ZTS`, `php_tsrm_startup()` followed on Windows by
`ZEND_TSRMLS_CACHE_UPDATE()`; then `zend_signal_startup()`. -/
def ext_php_rs_sapi_startup (cfg : BuildConfig) : List EngineAction :=
  (if cfg.hasSigpipe then [EngineAction.signalIgnoreSigpipe] else [])
    ++ (if cfg.zts then
          EngineAction.phpTsrmStartup ::
            (if cfg.phpWin32 then [EngineAction.tsrmlsCacheUpdate] else [])
        else [])
    ++ [EngineAction.zendSignalStartup]

/-- From `wrapper.c`: `ext_php_rs_sapi_shutdown` calls `tsrm_shutdown()`
under `ZTS` and does nothing otherwise. -/
def ext_php_rs_sapi_shutdown (cfg : BuildConfig) : List EngineAction :=
  if cfg.zts then [EngineAction.tsrmShutdown] else []

/-- From `wrapper.c`: `ext_php_rs_sapi_per_thread_init` calls
`ts_resource(0)` under `ZTS` (followed on Windows by
`ZEND_TSRMLS_CACHE_UPDATE()`) and does nothing otherwise. -/
def ext_php_rs_sapi_per_thread_init (cfg : BuildConfig) : List EngineAction :=
  if cfg.zts then
    EngineAction.tsResource 0 ::
      (if cfg.phpWin32 then [EngineAction.tsrmlsCacheUpdate] else [])
  else []

/-! ## ext_php_rs_sapi_check_sg

This wrapper does not forward to an engine primitive: it reads
`SG(request_info).request_method` and prints it, with a runtime null
check choosing between two output formats. -/

/-- From `wrapper.c`: `ext_php_rs_sapi_check_sg` reads the request
method from the SAPI globals (`none` models a `NULL` pointer) and
returns the text printed to standard output. -/
def ext_php_rs_sapi_check_sg (requestMethod : Option String) : String :=
  match requestMethod with
  | none => "SG(request_info).request_method: NULL\n"
  | some m => "SG(request_info).request_method: \"" ++ m ++ "\"\n"

/-! ## Remaining exported functions

`ext_php_rs_php_build_id` returns the engine macro constant
`ZEND_MODULE_BUILD_ID`, `ext_php_rs_sapi_module` returns the address of
the engine global `sapi_module`, and `ext_php_rs_embed_callback` runs a
callback between `PHP_EMBED_START_BLOCK` and `PHP_EMBED_END_BLOCK`.
The engine-provided constant, address and embed SAPI routines are
abstract parameters. -/

/-- From `wrapper.c`: `return ZEND_MODULE_BUILD_ID;` — the compile-time
engine build-id string is the abstract argument. -/
def ext_php_rs_php_build_id {CStrP : Type} (zendModuleBuildId : CStrP) : CStrP :=
  zendModuleBuildId

/-- From `wrapper.c`: `return &sapi_module;` — the address of the engine
global `sapi_module` structure is the abstract argument. -/
def ext_php_rs_sapi_module {Ptr : Type} (sapiModuleAddr : Ptr) : Ptr :=
  sapiModuleAddr

/-- Embed SAPI routines invoked by the `PHP_EMBED_START_BLOCK` and
`PHP_EMBED_END_BLOCK` macros. -/
structure EmbedSapi (W Argv : Type) where
  php_embed_init : Nat → Argv → W → W
  php_embed_shutdown : W → W

/-- From `wrapper.c`: `ext_php_rs_embed_callback` sets
`void *result = NULL;`, opens `PHP_EMBED_START_BLOCK(argc, argv)`
(which calls `php_embed_init` and opens `zend_first_try`), assigns
`result = callback(ctx);`, and closes with `PHP_EMBED_END_BLOCK()`
(an empty `zend_catch`, `zend_end_try`, then `php_embed_shutdown`),
returning `result`.  `none` models the `NULL` pointer. -/
def ext_php_rs_embed_callback {W Argv Ctx Ptr : Type} (S : EmbedSapi W Argv)
    (argc : Nat) (argv : Argv) (callback : Ctx → W → BailOutcome W (Option Ptr))
    (ctx : Ctx) (w : W) : Option Ptr × W :=
  let result : Option Ptr := none
  zend_try_catch_run (fun w0 => callback ctx w0)
    (fun r w2 => (r, S.php_embed_shutdown w2))
    (fun w2 => (result, S.php_embed_shutdown w2))
    (S.php_embed_init argc argv w)

/-! ## Helper lemmas on the GC-flag arithmetic -/

/-- Masking with `GC_FLAGS_MASK` keeps bit 9, so the subsequent test of
`IS_STR_VALID_UTF8` sees the raw bit of the type-info word. -/
theorem mask_and_utf8 (x : Nat) :
    x &&& GC_FLAGS_MASK &&& IS_STR_VALID_UTF8 = x &&& 2 ^ 9 := by
  have h : GC_FLAGS_MASK &&& IS_STR_VALID_UTF8 = 2 ^ 9 := by decide
  rw [Nat.and_assoc, h]

/-- Testing a single bit via `&&&` agrees with `Nat.testBit`. -/
theorem and_pow_ne_zero (x i : Nat) :
    decide (x &&& 2 ^ i ≠ 0) = x.testBit i := by
  have hp : (2 : Nat) ^ i ≠ 0 := pow_ne_zero i (by norm_num)
  rcases h : x.testBit i with _ | _ <;>
    simp [Nat.and_two_pow, h, hp]

/-- The UTF-8 query reads exactly bit 9 of the GC type-info word. -/
theorem is_known_valid_utf8_eq_testBit (zs : ZendString) :
    ext_php_rs_is_known_valid_utf8 zs = zs.typeInfo.testBit 9 := by
  unfold ext_php_rs_is_known_valid_utf8 GC_FLAGS GC_FLAGS_SHIFT
  simp only [Nat.shiftRight_zero, mask_and_utf8, and_pow_ne_zero]

/-! ## Claims -/

/-- C1 counterexample: on an interned string (GC type-info word with the
`IS_STR_INTERNED` bit set), `ext_php_rs_set_known_valid_utf8` does not
behave like the engine primitive it forwards to, because of its own
runtime conditional: the primitive `GC_ADD_FLAGS` would set the UTF-8
bit, while the wrapper leaves the string unchanged. -/
theorem wrapper_forwarding_cex :
    ext_php_rs_set_known_valid_utf8 (ZendString.mk IS_STR_INTERNED 0 0 [])
      ≠ GC_ADD_FLAGS (ZendString.mk IS_STR_INTERNED 0 0 []) IS_STR_VALID_UTF8 := by
  decide

/-- C1 (amended): every exported function of the shim except
`ext_php_rs_set_known_valid_utf8` and `ext_php_rs_sapi_check_sg`
forwards directly to the engine primitives it names, with at most
conditional-compilation branches around the call, so its observable
result and effect equal those of the forwarded engine call selected by
the compile-time flags: the four lifecycle wrappers and the bailout
wrapper equal their primitives, the UTF-8 query equals the engine
`GC_FLAGS` read, the build-id and sapi-module accessors return the
engine constant and address unchanged, the four globals accessors
return exactly the flag-selected lookup or address, the two try/catch
adapters and the embed callback delegate to the engine
zend_try/zend_catch control flow (the embed callback adding only the
`php_embed_init`/`php_embed_shutdown` calls of its embed block), and
the three SAPI lifecycle traces consist only of the flag-selected
engine calls.  The two exceptions add runtime logic of their own:
`ext_php_rs_set_known_valid_utf8` guards the forwarded `GC_ADD_FLAGS`
call with a runtime interned-string check and is a no-op on interned
strings, and `ext_php_rs_sapi_check_sg` forwards to no primitive,
producing its own runtime-conditional printf output instead. -/
theorem wrapper_forwarding_amended {W CStrP ZStrP ObjP CEP VoidP Ptr Argv Ctx α : Type}
    (E : EngineApi W CStrP ZStrP ObjP CEP VoidP) (S : EmbedSapi W Argv)
    (cfg : BuildConfig) (env : GlobalsEnv Ptr) :
    (∀ str len persistent w,
      ext_php_rs_zend_string_init E str len persistent w
        = E.zend_string_init str len persistent w)
    ∧ (∀ zs w, ext_php_rs_zend_string_release E zs w = E.zend_string_release zs w)
    ∧ (∀ s ce w, ext_php_rs_zend_object_alloc E s ce w = E.zend_object_alloc s ce w)
    ∧ (∀ o w, ext_php_rs_zend_object_release E o w = E.zend_object_release o w)
    ∧ (∀ zs, ext_php_rs_is_known_valid_utf8 zs
        = decide (GC_FLAGS zs &&& IS_STR_VALID_UTF8 ≠ 0))
    ∧ (∀ bid : CStrP, ext_php_rs_php_build_id bid = bid)
    ∧ (∀ p : Ptr, ext_php_rs_sapi_module p = p)
    ∧ (ext_php_rs_executor_globals cfg env
        = if cfg.zts then
            (if cfg.staticTsrmlsCache then env.tsrmStaticExecutor else env.tsrmExecutor)
          else env.executorGlobalsAddr)
    ∧ (ext_php_rs_process_globals cfg env
        = if cfg.zts then
            (if cfg.staticTsrmlsCache then env.tsrmStaticCore else env.tsrmCore)
          else env.coreGlobalsAddr)
    ∧ (ext_php_rs_sapi_globals cfg env
        = if cfg.zts then
            (if cfg.staticTsrmlsCache then env.tsrmStaticSapi else env.tsrmSapi)
          else env.sapiGlobalsAddr)
    ∧ (ext_php_rs_file_globals cfg env
        = if cfg.zts then env.tsrmFile else env.fileGlobalsAddr)
    ∧ (∀ (cb : Ctx → W → BailOutcome W α) ctx res w,
        ext_php_rs_zend_try_catch cb ctx res w
          = zend_try_catch_run (fun w0 => cb ctx w0)
              (fun ret w' => (false, ret, w')) (fun w' => (true, res, w')) w)
    ∧ (∀ (cb : Ctx → W → BailOutcome W α) ctx res w,
        ext_php_rs_zend_first_try_catch cb ctx res w
          = zend_try_catch_run (fun w0 => cb ctx w0)
              (fun ret w' => (false, ret, w')) (fun w' => (true, res, w')) w)
    ∧ (∀ w : W, @ext_php_rs_zend_bailout W α w = zend_bailout w)
    ∧ (∀ argc argv (cb : Ctx → W → BailOutcome W (Option Ptr)) ctx w,
        ext_php_rs_embed_callback S argc argv cb ctx w
          = zend_try_catch_run (fun w0 => cb ctx w0)
              (fun r w2 => (r, S.php_embed_shutdown w2))
              (fun w2 => (none, S.php_embed_shutdown w2))
              (S.php_embed_init argc argv w))
    ∧ (ext_php_rs_sapi_startup cfg
        = (if cfg.hasSigpipe then [EngineAction.signalIgnoreSigpipe] else [])
            ++ (if cfg.zts then
                  EngineAction.phpTsrmStartup ::
                    (if cfg.phpWin32 then [EngineAction.tsrmlsCacheUpdate] else [])
                else [])
            ++ [EngineAction.zendSignalStartup])
    ∧ (ext_php_rs_sapi_shutdown cfg
        = if cfg.zts then [EngineAction.tsrmShutdown] else [])
    ∧ (ext_php_rs_sapi_per_thread_init cfg
        = if cfg.zts then
            EngineAction.tsResource 0 ::
              (if cfg.phpWin32 then [EngineAction.tsrmlsCacheUpdate] else [])
          else [])
    ∧ (∀ zs, ext_php_rs_set_known_valid_utf8 zs
        = if ZSTR_IS_INTERNED zs then zs else GC_ADD_FLAGS zs IS_STR_VALID_UTF8)
    ∧ (ext_php_rs_sapi_check_sg none = "SG(request_info).request_method: NULL\n")
    ∧ (∀ m, ext_php_rs_sapi_check_sg (some m)
        = "SG(request_info).request_method: \"" ++ m ++ "\"\n") := by
  refine ⟨fun _ _ _ _ => rfl, fun _ _ => rfl, fun _ _ _ => rfl, fun _ _ => rfl,
    fun _ => rfl, fun _ => rfl, fun _ => rfl, rfl, rfl, rfl, rfl,
    fun _ _ _ _ => rfl, fun _ _ _ _ => rfl, fun _ => rfl, fun _ _ _ _ _ => rfl,
    rfl, rfl, rfl, fun zs => ?_, rfl, fun _ => rfl⟩
  unfold ext_php_rs_set_known_valid_utf8
  cases h : ZSTR_IS_INTERNED zs <;> simp [h]

/-- C2: for every callback and context, the try/catch adapters run the
callback under the engine zend_try/zend_catch mechanism: on normal
completion they store the callback return value into the result cell
and return `false`; on bailout they return `true`. -/
theorem try_catch_behavior {W Ctx α : Type}
    (callback : Ctx → W → BailOutcome W α) (ctx : Ctx) (res : α) (w : W) :
    (∀ ret w', callback ctx w = BailOutcome.ok ret w' →
      ext_php_rs_zend_try_catch callback ctx res w = (false, ret, w')
      ∧ ext_php_rs_zend_first_try_catch callback ctx res w = (false, ret, w'))
    ∧ (∀ w', callback ctx w = BailOutcome.bail w' →
      (ext_php_rs_zend_try_catch callback ctx res w).1 = true
      ∧ (ext_php_rs_zend_first_try_catch callback ctx res w).1 = true) := by
  constructor
  · intro ret w' h
    constructor <;>
      simp [ext_php_rs_zend_try_catch, ext_php_rs_zend_first_try_catch,
        zend_try_catch_run, h]
  · intro w' h
    constructor <;>
      simp [ext_php_rs_zend_try_catch, ext_php_rs_zend_first_try_catch,
        zend_try_catch_run, h]

/-- C2 witness: a concrete normally-returning callback stores its value
and yields `false`; a concrete bailing callback yields `true`. -/
theorem try_catch_behavior_witness :
    (ext_php_rs_zend_try_catch (fun (_ : Unit) (w : Nat) => BailOutcome.ok 7 w)
        () 0 5 = (false, 7, 5))
    ∧ ((ext_php_rs_zend_try_catch (fun (_ : Unit) (w : Nat) => BailOutcome.bail w)
        () 0 5).1 = true) :=
  ⟨((try_catch_behavior (fun (_ : Unit) (w : Nat) => BailOutcome.ok 7 w)
      () 0 5).1 7 5 rfl).1,
   ((try_catch_behavior (fun (_ : Unit) (w : Nat) => BailOutcome.bail w)
      () 0 5).2 5 rfl).1⟩

/-- C3: the string and object lifecycle wrappers are one-line forwards
to `zend_string_init`, `zend_string_release`, `zend_object_alloc` and
`zend_object_release`. -/
theorem lifecycle_one_line_forwards {W CStrP ZStrP ObjP CEP VoidP : Type}
    (E : EngineApi W CStrP ZStrP ObjP CEP VoidP) :
    (∀ str len persistent w,
      ext_php_rs_zend_string_init E str len persistent w
        = E.zend_string_init str len persistent w)
    ∧ (∀ zs w, ext_php_rs_zend_string_release E zs w = E.zend_string_release zs w)
    ∧ (∀ s ce w, ext_php_rs_zend_object_alloc E s ce w = E.zend_object_alloc s ce w)
    ∧ (∀ o w, ext_php_rs_zend_object_release E o w = E.zend_object_release o w) :=
  ⟨fun _ _ _ _ => rfl, fun _ _ => rfl, fun _ _ _ => rfl, fun _ _ => rfl⟩

/-- C4: each globals accessor returns the TSRM lookup of the matching
global structure in a ZTS build (the static-cache lookup when that flag
is set; `file_globals` has no static-cache variant) and the address of
the static global structure in a non-ZTS build. -/
theorem globals_accessors_selection {Ptr : Type}
    (cfg : BuildConfig) (env : GlobalsEnv Ptr) :
    (cfg.zts = true →
      ext_php_rs_executor_globals cfg env
          = (if cfg.staticTsrmlsCache then env.tsrmStaticExecutor else env.tsrmExecutor)
        ∧ ext_php_rs_process_globals cfg env
          = (if cfg.staticTsrmlsCache then env.tsrmStaticCore else env.tsrmCore)
        ∧ ext_php_rs_sapi_globals cfg env
          = (if cfg.staticTsrmlsCache then env.tsrmStaticSapi else env.tsrmSapi)
        ∧ ext_php_rs_file_globals cfg env = env.tsrmFile)
    ∧ (cfg.zts = false →
      ext_php_rs_executor_globals cfg env = env.executorGlobalsAddr
        ∧ ext_php_rs_process_globals cfg env = env.coreGlobalsAddr
        ∧ ext_php_rs_sapi_globals cfg env = env.sapiGlobalsAddr
        ∧ ext_php_rs_file_globals cfg env = env.fileGlobalsAddr) := by
  constructor <;> intro h <;>
    simp [ext_php_rs_executor_globals, ext_php_rs_process_globals,
      ext_php_rs_sapi_globals, ext_php_rs_file_globals, h]

/-- C4 witness: concrete ZTS and non-ZTS configurations over `Nat`
pointers. -/
theorem globals_accessors_selection_witness :
    (ext_php_rs_executor_globals (BuildConfig.mk true true false false)
        (GlobalsEnv.mk 1 2 3 4 5 6 7 8 9 10 11) = 1)
    ∧ (ext_php_rs_file_globals (BuildConfig.mk false false false false)
        (GlobalsEnv.mk 1 2 3 4 5 6 7 8 9 10 11) = 11) :=
  ⟨((globals_accessors_selection (BuildConfig.mk true true false false)
      (GlobalsEnv.mk 1 2 3 4 5 6 7 8 9 10 11)).1 rfl).1,
   ((globals_accessors_selection (BuildConfig.mk false false false false)
      (GlobalsEnv.mk 1 2 3 4 5 6 7 8 9 10 11)).2 rfl).2.2.2⟩

/-- C5: the startup trace is fixed by the compile-time flags alone: the
SIGPIPE ignore comes first when present, `zend_signal_startup` comes
last on every path, `php_tsrm_startup` appears exactly in ZTS builds,
the TSRMLS cache update exactly in ZTS Windows builds, every trace is
an in-order selection from the canonical fixed sequence (SIGPIPE
ignore, then `php_tsrm_startup`, then the cache update, then
`zend_signal_startup`), and no engine call is ever repeated (no retry)
nor any recovery call made. -/
theorem sapi_startup_fixed_order (cfg : BuildConfig) :
    ((ext_php_rs_sapi_startup cfg).getLast? = some EngineAction.zendSignalStartup)
    ∧ (cfg.hasSigpipe = true →
        (ext_php_rs_sapi_startup cfg).head? = some EngineAction.signalIgnoreSigpipe)
    ∧ ((EngineAction.phpTsrmStartup ∈ ext_php_rs_sapi_startup cfg) ↔ cfg.zts = true)
    ∧ ((EngineAction.tsrmlsCacheUpdate ∈ ext_php_rs_sapi_startup cfg)
        ↔ (cfg.zts = true ∧ cfg.phpWin32 = true))
    ∧ List.Sublist (ext_php_rs_sapi_startup cfg)
        [EngineAction.signalIgnoreSigpipe, EngineAction.phpTsrmStartup,
         EngineAction.tsrmlsCacheUpdate, EngineAction.zendSignalStartup]
    ∧ (ext_php_rs_sapi_startup cfg).Nodup
    ∧ (EngineAction.tsrmShutdown ∉ ext_php_rs_sapi_startup cfg) := by
  rcases cfg with ⟨zts, sc, win, sp⟩
  refine ⟨?_, ?_, ?_, ?_, ?_, ?_, ?_⟩
  · cases zts <;> cases win <;> cases sp <;> simp [ext_php_rs_sapi_startup]
  · intro h
    subst h
    cases zts <;> cases win <;> simp [ext_php_rs_sapi_startup]
  · cases zts <;> cases win <;> cases sp <;> simp [ext_php_rs_sapi_startup]
  · cases zts <;> cases win <;> cases sp <;> simp [ext_php_rs_sapi_startup]
  · cases zts <;> cases sc <;> cases win <;> cases sp <;> decide
  · cases zts <;> cases sc <;> cases win <;> cases sp <;> decide
  · cases zts <;> cases win <;> cases sp <;> simp [ext_php_rs_sapi_startup]

/-- C5 witness: a full configuration (ZTS, Windows, SIGPIPE present)
starts with the SIGPIPE ignore. -/
theorem sapi_startup_fixed_order_witness :
    (ext_php_rs_sapi_startup (BuildConfig.mk true true true true)).head?
      = some EngineAction.signalIgnoreSigpipe :=
  (sapi_startup_fixed_order (BuildConfig.mk true true true true)).2.1 rfl

/-- C6: `ext_php_rs_zend_bailout` forwards to the engine `zend_bailout`
and never completes normally. -/
theorem zend_bailout_never_returns {W α : Type} (w : W) :
    @ext_php_rs_zend_bailout W α w = zend_bailout w
    ∧ ∀ (a : α) (w' : W), @ext_php_rs_zend_bailout W α w ≠ BailOutcome.ok a w' := by
  exact ⟨rfl, by simp [ext_php_rs_zend_bailout, zend_bailout]⟩

/-- C6 witness: at a concrete state, the bailout wrapper does not yield
a normal result. -/
theorem zend_bailout_never_returns_witness :
    @ext_php_rs_zend_bailout Nat Nat 0 ≠ BailOutcome.ok 3 0 :=
  (@zend_bailout_never_returns Nat Nat 0).2 3 0

/-- C7: `ext_php_rs_sapi_shutdown` calls only `tsrm_shutdown` in a ZTS
build and performs no engine call at all in a non-ZTS build. -/
theorem sapi_shutdown_only_tsrm (cfg : BuildConfig) :
    (cfg.zts = true → ext_php_rs_sapi_shutdown cfg = [EngineAction.tsrmShutdown])
    ∧ (cfg.zts = false → ext_php_rs_sapi_shutdown cfg = []) := by
  constructor <;> intro h <;> simp [ext_php_rs_sapi_shutdown, h]

/-- C7 witness: concrete ZTS and non-ZTS configurations. -/
theorem sapi_shutdown_only_tsrm_witness :
    (ext_php_rs_sapi_shutdown (BuildConfig.mk true false false false)
        = [EngineAction.tsrmShutdown])
    ∧ (ext_php_rs_sapi_shutdown (BuildConfig.mk false false false false) = []) :=
  ⟨(sapi_shutdown_only_tsrm (BuildConfig.mk true false false false)).1 rfl,
   (sapi_shutdown_only_tsrm (BuildConfig.mk false false false false)).2 rfl⟩

/-- C8: on an interned string the UTF-8 setter is a no-op; on a
non-interned string it ORs exactly the `IS_STR_VALID_UTF8` bit into the
GC type-info word and changes no other field. -/
theorem set_known_valid_utf8_frame (zs : ZendString) :
    ext_php_rs_set_known_valid_utf8 zs =
      if ZSTR_IS_INTERNED zs then zs
      else ZendString.mk (zs.typeInfo ||| IS_STR_VALID_UTF8) zs.h zs.len zs.val := by
  unfold ext_php_rs_set_known_valid_utf8 GC_ADD_FLAGS GC_FLAGS_SHIFT
  cases h : ZSTR_IS_INTERNED zs <;> simp [h]

/-- C9: the UTF-8 query returns true exactly when the
`IS_STR_VALID_UTF8` flag (bit 9) is set in the GC flags, and on every
non-interned string the setter followed by the query yields true. -/
theorem utf8_set_query_roundtrip :
    (∀ zs, ext_php_rs_is_known_valid_utf8 zs = zs.typeInfo.testBit 9)
    ∧ (∀ zs, ZSTR_IS_INTERNED zs = false →
        ext_php_rs_is_known_valid_utf8 (ext_php_rs_set_known_valid_utf8 zs) = true) := by
  refine ⟨is_known_valid_utf8_eq_testBit, fun zs h => ?_⟩
  rw [is_known_valid_utf8_eq_testBit]
  unfold ext_php_rs_set_known_valid_utf8 GC_ADD_FLAGS GC_FLAGS_SHIFT
  simp [h, IS_STR_VALID_UTF8, Nat.testBit_or]
  exact Or.inr (by decide)

/-- C9 witness: a fresh string with a zero GC word is not interned, and
setting then querying the UTF-8 flag yields true. -/
theorem utf8_set_query_roundtrip_witness :
    ZSTR_IS_INTERNED (ZendString.mk 0 0 0 []) = false
    ∧ ext_php_rs_is_known_valid_utf8
        (ext_php_rs_set_known_valid_utf8 (ZendString.mk 0 0 0 [])) = true :=
  ⟨by decide, utf8_set_query_roundtrip.2 (ZendString.mk 0 0 0 []) (by decide)⟩

/-- C10: when the callback bails out, both adapters leave the result
cell untouched: the triple they return carries the prior contents. -/
theorem try_catch_bailout_preserves_result {W Ctx α : Type}
    (callback : Ctx → W → BailOutcome W α) (ctx : Ctx) (res : α) (w : W) :
    ((ext_php_rs_zend_try_catch callback ctx res w).1 = true →
      (ext_php_rs_zend_try_catch callback ctx res w).2.1 = res)
    ∧ ((ext_php_rs_zend_first_try_catch callback ctx res w).1 = true →
      (ext_php_rs_zend_first_try_catch callback ctx res w).2.1 = res) := by
  constructor <;> intro h <;>
    revert h <;>
    cases hc : callback ctx w <;>
      simp [ext_php_rs_zend_try_catch, ext_php_rs_zend_first_try_catch,
        zend_try_catch_run, hc]

/-- C10 witness: a concrete bailing callback leaves the prior result
contents `5` in place. -/
theorem try_catch_bailout_preserves_result_witness :
    (ext_php_rs_zend_try_catch (fun (_ : Unit) (w : Nat) => BailOutcome.bail w)
        () 5 0).2.1 = 5
    ∧ (ext_php_rs_zend_first_try_catch (fun (_ : Unit) (w : Nat) => BailOutcome.bail w)
        () 5 0).2.1 = 5 :=
  ⟨(try_catch_bailout_preserves_result
      (fun (_ : Unit) (w : Nat) => BailOutcome.bail w) () 5 0).1 rfl,
   (try_catch_bailout_preserves_result
      (fun (_ : Unit) (w : Nat) => BailOutcome.bail w) () 5 0).2 rfl⟩

end ExtPhpRs
